import Mathlib

/-! DuckRadio: the interrupt-driven transceiver of a ClusterDuck node

A shallow embedding of `src/DuckRadio.cpp`.  The file-level flags of the
translation unit (`interruptFlags`, `receivedFlag`, `radio_receiving`,
`radio_sending`, `interruptFired`) and the member `channel` form an explicit
state record that every member function threads through.  The RadioLib object
`lora` is an external collaborator: its answers are arbitrary functions of the
calls made so far, and every call is appended to a log kept in the state, so
that statements such as "the driver's readData is not called" or "reception is
restarted exactly once" can be read off the log.

Macros and constants that live in headers outside the translation unit
(`DuckError.h`, `CdpPacket.h`, `cdpcfg.h`, RadioLib) are fields of `Macros`;
the functions are defined for every value of them.
-/

namespace DuckRadio

/-! ## The driver -/

/-- One call into the RadioLib object `lora`, with the arguments that were passed.
Frequencies, bandwidths and the like are only handed through to the driver and
never computed with, so they are carried as natural-number codes. -/
inductive Call where
  | begin (band bw sf : Nat) (txPower : Int)
  | beginDefault
  | setFrequency (freq : Nat)
  | setBandwidth (bw : Nat)
  | setSpreadingFactor (sf : Nat)
  | setOutputPower (txPower : Int)
  | setGain (gain : Nat)
  | setDio0Action
  | setDio1Action
  | setSyncWord (syncWord : Nat)
  | startReceive
  | getPacketLength
  | readData (len : Int)
  | transmit (data : List Nat) (length : Int)
  | getIRQFlags
  | getRSSI
  | getSNR
  | getFrequencyError (autoCorrect : Bool)
  deriving DecidableEq, Repr

/-- The radio driver seen from `DuckRadio.cpp`: what each call answers, given
the calls made before it.  Any run of a real driver is a run of one of these. -/
structure Lora where
  /-- the status code a call returns -/
  status : List Call → Call → Int
  /-- what `getPacketLength()` returns, as stored into `int packet_length` -/
  packetLength : List Call → Int
  /-- the bytes `readData` copies into the caller's buffer -/
  received : List Call → List Nat
  /-- what `getIRQFlags()` returns -/
  irqFlags : List Call → Nat

/-! ## Compile-time configuration -/

/-- The macros, constants and helper functions `DuckRadio.cpp` takes from headers
and libraries outside the translation unit. -/
structure Macros where
  /-- whether `CDPCFG_SPARKFUN_APOLLO3` is defined -/
  apollo3 : Bool
  DUCK_ERR_NONE : Int
  DUCKLORA_ERR_BEGIN : Int
  DUCKLORA_ERR_SETUP : Int
  DUCKLORA_ERR_RECEIVE : Int
  DUCKLORA_ERR_TIMEOUT : Int
  DUCKLORA_ERR_TRANSMIT : Int
  DUCKLORA_ERR_HANDLE_PACKET : Int
  DUCKLORA_ERR_MSG_TOO_LARGE : Int
  RADIOLIB_ERR_NONE : Int
  RADIOLIB_ERR_PACKET_TOO_LONG : Int
  RADIOLIB_ERR_TX_TIMEOUT : Int
  RADIOLIB_ERR_INVALID_FREQUENCY : Int
  RADIOLIB_ERR_INVALID_BANDWIDTH : Int
  RADIOLIB_ERR_INVALID_SPREADING_FACTOR : Int
  RADIOLIB_ERR_INVALID_OUTPUT_POWER : Int
  RADIOLIB_ERR_INVALID_GAIN : Int
  RADIOLIB_SX127X_CLEAR_IRQ_FLAG_RX_DONE : Nat
  RADIOLIB_SX127X_CLEAR_IRQ_FLAG_TX_DONE : Nat
  MIN_PACKET_LENGTH : Int
  DATA_POS : Nat
  DATA_CRC_POS : Nat
  CDPCFG_DEFAULT_SYNC_WORD : Nat
  CHANNEL_1 : Nat
  CHANNEL_2 : Nat
  CHANNEL_3 : Nat
  CHANNEL_4 : Nat
  CHANNEL_5 : Nat
  CHANNEL_6 : Nat
  CHANNEL_1_EU : Nat
  CHANNEL_2_EU : Nat
  CHANNEL_3_EU : Nat
  CHANNEL_4_EU : Nat
  CHANNEL_5_EU : Nat
  CHANNEL_6_EU : Nat
  /-- the helper `duckutils::toUnit32`, applied to the bytes a pointer points at -/
  toUnit32 : List Nat → Nat
  /-- the library routine `CRC32::calculate` -/
  crc32 : List Nat → Nat

/-- The fields of `LoraConfigParams` that `setupRadio` hands to the driver. -/
structure LoraConfigParams where
  band : Nat
  ss : Int
  rst : Int
  di0 : Int
  di1 : Int
  txPower : Int
  bw : Nat
  sf : Nat
  gain : Nat
  deriving DecidableEq, Repr

/-- A packet object as far as `relayPacket` uses it: its byte buffer. -/
structure DuckPacket where
  buffer : List Nat
  deriving DecidableEq, Repr

/-! ## The state -/

/-- The file-level flags of `DuckRadio.cpp`, the member `channel`, and the log of
driver calls (oldest first). -/
structure RadioState where
  /-- the static member, a `uint16_t` -/
  interruptFlags : Nat
  /-- the static member -/
  receivedFlag : Bool
  radio_receiving : Bool
  radio_sending : Bool
  interruptFired : Bool
  channel : Int
  log : List Call
  deriving DecidableEq, Repr

/-- The initialisers of lines 23-31: every flag false, no interrupt flags, and no
driver call made yet. -/
def initial : RadioState :=
  { interruptFlags := 0
    receivedFlag := false
    radio_receiving := false
    radio_sending := false
    interruptFired := false
    channel := 0
    log := [] }

/-- A call of a status-returning driver method: the answer depends on the calls
made so far, and the call is logged. -/
def loraCall (d : Lora) (k : Call) (s : RadioState) : Int × RadioState :=
  (d.status s.log k, { s with log := s.log ++ [k] })

/-- Modelled from the spec: the inline setter `DuckRadio::setReceiveFlag` of
`DuckRadio.h`, which is not among the sources; it stores its argument in the
pending received-data flag that the service operation later drains. -/
def setReceiveFlag (value : Bool) (s : RadioState) : RadioState :=
  { s with receivedFlag := value }

/-! ## Byte buffers -/

/-- The effect of `std::vector::resize(n)`: keep the first `n` elements, pad with zero. -/
def resize (v : List Nat) (n : Nat) : List Nat :=
  v.take n ++ List.replicate (n - v.length) 0

/-- The effect of `readData(buf, n)`: the driver overwrites at most the first `n`
bytes of the buffer. -/
def writeBytes (buf rx : List Nat) (n : Nat) : List Nat :=
  rx.take n ++ buf.drop (min rx.length n)

/-! ## The member functions -/

/-- `DuckRadio::startReceive`, lines 225-235. -/
def startReceive (c : Macros) (d : Lora) (s : RadioState) : Int × RadioState :=
  let r := loraCall d Call.startReceive s
  let state := r.1
  let s1 := { r.2 with radio_receiving := true }
  if state ≠ c.RADIOLIB_ERR_NONE then
    (c.DUCKLORA_ERR_RECEIVE, s1)
  else
    (c.DUCK_ERR_NONE, s1)

/-- The driver queries inside the log statement of lines 195-200, made once a
packet has passed the checksum test: `lora.getRSSI()`, `lora.getSNR()` and,
when `CDPCFG_SPARKFUN_APOLLO3` is not defined, `lora.getFrequencyError(true)`.
Their values only go into the log message.  The calls are recorded in the order
of the source text; nothing below depends on the order among them. -/
def signalQueries (c : Macros) : List Call :=
  if c.apollo3 then
    [Call.getRSSI, Call.getSNR]
  else
    [Call.getRSSI, Call.getSNR, Call.getFrequencyError true]

/-- `DuckRadio::readReceivedData`, lines 139-207.  The result carries the return
value, the caller's `packetBytes` vector afterwards, and the state. -/
def readReceivedData (c : Macros) (d : Lora) (packetBytes : List Nat) (s : RadioState) :
    Int × List Nat × RadioState :=
  let packet_length := d.packetLength s.log
  let s0 := { s with log := s.log ++ [Call.getPacketLength] }
  if packet_length < c.MIN_PACKET_LENGTH then
    let s1 := setReceiveFlag false s0
    let rx := startReceive c d s1
    (c.DUCKLORA_ERR_HANDLE_PACKET, packetBytes, rx.2)
  else
    let resized := resize packetBytes packet_length.toNat
    let rd := loraCall d (Call.readData packet_length) s0
    let err := rd.1
    let data := writeBytes resized (d.received s0.log) packet_length.toNat
    let s2 := setReceiveFlag false rd.2
    let rx := startReceive c d s2
    let rxState := rx.1
    if err ≠ c.RADIOLIB_ERR_NONE then
      (c.DUCKLORA_ERR_HANDLE_PACKET, data, rx.2)
    else
      let data_section := (data.take packet_length.toNat).drop c.DATA_POS
      let packet_data_crc := c.toUnit32 (data.drop c.DATA_CRC_POS) % 2 ^ 32
      let computed_data_crc := c.crc32 data_section % 2 ^ 32
      if computed_data_crc ≠ packet_data_crc then
        (c.DUCKLORA_ERR_HANDLE_PACKET, data, rx.2)
      else
        let s3 := { rx.2 with log := rx.2.log ++ signalQueries c }
        if rxState ≠ c.RADIOLIB_ERR_NONE then
          (rxState, data, s3)
        else
          (err, data, s3)

/-- `DuckRadio::startTransmitData`, lines 388-424. -/
def startTransmitData (c : Macros) (d : Lora) (data : List Nat) (length : Int)
    (s : RadioState) : Int × RadioState :=
  let s1 := { s with radio_sending := true }
  let tx := loraCall d (Call.transmit data length) s1
  let tx_err := tx.1
  let err :=
    if tx_err = c.RADIOLIB_ERR_NONE then c.DUCK_ERR_NONE
    else if tx_err = c.RADIOLIB_ERR_PACKET_TOO_LONG then c.DUCKLORA_ERR_MSG_TOO_LARGE
    else if tx_err = c.RADIOLIB_ERR_TX_TIMEOUT then c.DUCKLORA_ERR_TIMEOUT
    else c.DUCKLORA_ERR_TRANSMIT
  (err, tx.2)

/-- `DuckRadio::sendData(byte *data, int length)`, lines 209-212. -/
def sendData (c : Macros) (d : Lora) (data : List Nat) (length : Int) (s : RadioState) :
    Int × RadioState :=
  startTransmitData c d data length s

/-- `DuckRadio::relayPacket`, lines 214-218. -/
def relayPacket (c : Macros) (d : Lora) (packet : DuckPacket) (s : RadioState) :
    Int × RadioState :=
  startTransmitData c d packet.buffer packet.buffer.length s

/-- `DuckRadio::sendData(std::vector<byte> data)`, lines 220-223. -/
def sendDataVec (c : Macros) (d : Lora) (data : List Nat) (s : RadioState) :
    Int × RadioState :=
  startTransmitData c d data data.length s

/-- `DuckRadio::onInterrupt`, lines 380-386. -/
def onInterrupt (c : Macros) (d : Lora) (s : RadioState) : RadioState :=
  if c.apollo3 then
    { s with interruptFired := true }
  else
    { s with interruptFlags := d.irqFlags s.log % 2 ^ 16
             log := s.log ++ [Call.getIRQFlags] }

/-- `DuckRadio::serviceInterruptFlags`, lines 330-377.  Branches that only log a
message are left out. -/
def serviceInterruptFlags (c : Macros) (d : Lora) (s : RadioState) : RadioState :=
  if c.apollo3 then
    if s.interruptFired then
      let s1 :=
        if s.radio_sending then
          (startReceive c d { s with radio_sending := false }).2
        else if s.radio_receiving then
          { setReceiveFlag true s with radio_receiving := false }
        else s
      { s1 with interruptFired := false }
    else s
  else
    if s.interruptFlags ≠ 0 then
      let s1 :=
        if s.interruptFlags &&& c.RADIOLIB_SX127X_CLEAR_IRQ_FLAG_RX_DONE ≠ 0 then
          setReceiveFlag true s
        else s
      let s2 :=
        if s1.interruptFlags &&& c.RADIOLIB_SX127X_CLEAR_IRQ_FLAG_TX_DONE ≠ 0 then
          (startReceive c d s1).2
        else s1
      { s2 with interruptFlags := 0 }
    else s

/-- One arm of the switches in `setChannel`:
`err = lora.setFrequency(f); lora.startReceive(); break;`.  The result is `err`. -/
def setChannelArm (d : Lora) (freq : Nat) (s : RadioState) : Int × RadioState :=
  let f := loraCall d (Call.setFrequency freq) s
  let r := loraCall d Call.startReceive f.2
  (f.1, r.2)

/-- The first `switch (channelNum)` of `setChannel`, lines 254-286. -/
def setChannelSwitchEU (c : Macros) (d : Lora) (channelNum : Int) (s : RadioState) :
    Int × RadioState :=
  if channelNum = 2 then setChannelArm d c.CHANNEL_2_EU s
  else if channelNum = 3 then setChannelArm d c.CHANNEL_3_EU s
  else if channelNum = 4 then setChannelArm d c.CHANNEL_4_EU s
  else if channelNum = 5 then setChannelArm d c.CHANNEL_5_EU s
  else if channelNum = 6 then setChannelArm d c.CHANNEL_6_EU s
  else setChannelArm d c.CHANNEL_1_EU s

/-- The second `switch (channelNum)` of `setChannel`, lines 287-319. -/
def setChannelSwitch (c : Macros) (d : Lora) (channelNum : Int) (s : RadioState) :
    Int × RadioState :=
  if channelNum = 2 then setChannelArm d c.CHANNEL_2 s
  else if channelNum = 3 then setChannelArm d c.CHANNEL_3 s
  else if channelNum = 4 then setChannelArm d c.CHANNEL_4 s
  else if channelNum = 5 then setChannelArm d c.CHANNEL_5 s
  else if channelNum = 6 then setChannelArm d c.CHANNEL_6 s
  else setChannelArm d c.CHANNEL_1 s

/-- `DuckRadio::setChannel`, lines 248-328.  Both switches sit inside the
`if (isEU)` block, one after the other; there is no `else` branch.  The local
`int err;` has no initialiser, so when `isEU` is false the value tested on line
321 is indeterminate: it is the argument `err0`. -/
def setChannel (c : Macros) (d : Lora) (channelNum : Int) (isEU : Bool) (err0 : Int)
    (s : RadioState) : RadioState :=
  let r :=
    if isEU then
      let eu := setChannelSwitchEU c d channelNum s
      setChannelSwitch c d channelNum eu.2
    else
      (err0, s)
  let err := r.1
  if err ≠ c.RADIOLIB_ERR_NONE then
    r.2
  else
    let rx := loraCall d Call.startReceive r.2
    { rx.2 with channel := channelNum }

/-- The end of `setupRadio`, lines 122-128. -/
def setupRadioReceive (c : Macros) (d : Lora) (s : RadioState) : Int × RadioState :=
  let rx := loraCall d Call.startReceive s
  if rx.1 ≠ c.RADIOLIB_ERR_NONE then
    (c.DUCKLORA_ERR_RECEIVE, rx.2)
  else
    (c.DUCK_ERR_NONE, rx.2)

/-- The part of `setupRadio` compiled only when `CDPCFG_SPARKFUN_APOLLO3` is not
defined, lines 67-119, followed by the common end. -/
def setupRadioParams (c : Macros) (d : Lora) (config : LoraConfigParams) (s : RadioState) :
    Int × RadioState :=
  let f := loraCall d (Call.setFrequency config.band) s
  if f.1 = c.RADIOLIB_ERR_INVALID_FREQUENCY then (c.DUCKLORA_ERR_SETUP, f.2)
  else
    let b := loraCall d (Call.setBandwidth config.bw) f.2
    if b.1 = c.RADIOLIB_ERR_INVALID_BANDWIDTH then (c.DUCKLORA_ERR_SETUP, b.2)
    else
      let sp := loraCall d (Call.setSpreadingFactor config.sf) b.2
      if sp.1 = c.RADIOLIB_ERR_INVALID_SPREADING_FACTOR then (c.DUCKLORA_ERR_SETUP, sp.2)
      else
        let p := loraCall d (Call.setOutputPower config.txPower) sp.2
        if p.1 = c.RADIOLIB_ERR_INVALID_OUTPUT_POWER then (c.DUCKLORA_ERR_SETUP, p.2)
        else
          let g := loraCall d (Call.setGain config.gain) p.2
          if g.1 = c.RADIOLIB_ERR_INVALID_GAIN then (c.DUCKLORA_ERR_SETUP, g.2)
          else
            let a := loraCall d Call.setDio0Action g.2
            let w := loraCall d (Call.setSyncWord c.CDPCFG_DEFAULT_SYNC_WORD) a.2
            if w.1 ≠ c.RADIOLIB_ERR_NONE then (c.DUCKLORA_ERR_SETUP, w.2)
            else setupRadioReceive c d w.2

/-- `DuckRadio::setupRadio`, lines 36-129.  Constructing the `Module` object
touches neither the flags nor the radio and is left out. -/
def setupRadio (c : Macros) (d : Lora) (config : LoraConfigParams) (s : RadioState) :
    Int × RadioState :=
  let b :=
    if c.apollo3 then
      loraCall d (Call.begin config.band config.bw config.sf config.txPower) s
    else
      loraCall d Call.beginDefault s
  if b.1 ≠ c.RADIOLIB_ERR_NONE then
    (c.DUCKLORA_ERR_BEGIN, b.2)
  else if c.apollo3 then
    setupRadioReceive c d (loraCall d Call.setDio1Action b.2).2
  else
    setupRadioParams c d config b.2

/-! ## Reading the log -/

/-- The frequency of the most recent `setFrequency` call, if there was one. -/
def lastFrequency (log : List Call) : Option Nat :=
  log.foldl (fun acc k => match k with
    | Call.setFrequency f => some f
    | _ => acc) none

/-- How many times the driver's `startReceive` was called. -/
def countStartReceive (log : List Call) : Nat :=
  log.count Call.startReceive

/-- Whether a logged call is a `readData`. -/
def Call.isReadData : Call → Bool
  | Call.readData _ => true
  | _ => false

/-- Whether a logged call is a `transmit`. -/
def Call.isTransmit : Call → Bool
  | Call.transmit _ _ => true
  | _ => false

/-- Whether a logged call is one of the signal-quality queries `getRSSI`,
`getSNR`, `getFrequencyError`, which read a value and start nothing. -/
def Call.isSignalQuery : Call → Bool
  | Call.getRSSI => true
  | Call.getSNR => true
  | Call.getFrequencyError _ => true
  | _ => false

/-- The constant `CHANNEL_<n>` for `n` from 1 to 6 (any other `n` is given
`CHANNEL_1`, as the `default` label does). -/
def Macros.CHANNEL (c : Macros) (n : Int) : Nat :=
  if n = 1 then c.CHANNEL_1
  else if n = 2 then c.CHANNEL_2
  else if n = 3 then c.CHANNEL_3
  else if n = 4 then c.CHANNEL_4
  else if n = 5 then c.CHANNEL_5
  else if n = 6 then c.CHANNEL_6
  else c.CHANNEL_1

/-- The constant `CHANNEL_<n>_EU` for `n` from 1 to 6 (any other `n` is given
`CHANNEL_1_EU`, as the `default` label does). -/
def Macros.CHANNEL_EU (c : Macros) (n : Int) : Nat :=
  if n = 1 then c.CHANNEL_1_EU
  else if n = 2 then c.CHANNEL_2_EU
  else if n = 3 then c.CHANNEL_3_EU
  else if n = 4 then c.CHANNEL_4_EU
  else if n = 5 then c.CHANNEL_5_EU
  else if n = 6 then c.CHANNEL_6_EU
  else c.CHANNEL_1_EU

/-- A set of parameters for `setupRadio`. -/
def sampleConfig : LoraConfigParams :=
  { band := 915000, ss := 18, rst := 14, di0 := 26, di1 := 33, txPower := 20,
    bw := 125, sf := 7, gain := 0 }

/-! ## Sequences of operations -/

/-- The operations that act on the state flags, with their arguments. -/
inductive Op where
  | startReceive
  | startTransmitData (data : List Nat) (length : Int)
  | onInterrupt
  | serviceInterruptFlags
  | readReceivedData (packetBytes : List Nat)
  deriving DecidableEq, Repr

/-- Whether an operation is a transmit request. -/
def Op.isTransmit : Op → Bool
  | Op.startTransmitData _ _ => true
  | _ => false

/-- One bit of the reflected CRC-32 division, polynomial `0xEDB88320`. -/
def crcShift (crc : Nat) : Nat :=
  if crc % 2 = 1 then (crc / 2) ^^^ 0xEDB88320 else crc / 2

/-- One byte of the CRC-32. -/
def crcByte (crc b : Nat) : Nat :=
  crcShift (crcShift (crcShift (crcShift (crcShift (crcShift (crcShift (crcShift
    (crc ^^^ (b % 256)))))))))

/-- The CRC-32 of a byte sequence (initial value and final complement `0xFFFFFFFF`). -/
def crc32 (data : List Nat) : Nat :=
  (data.foldl crcByte 0xFFFFFFFF) ^^^ 0xFFFFFFFF

/-- Four bytes read as a big-endian 32-bit word. -/
def toUnit32 (p : List Nat) : Nat :=
  (p.getD 0 0 % 256) * 2 ^ 24 + (p.getD 1 0 % 256) * 2 ^ 16 + (p.getD 2 0 % 256) * 2 ^ 8
    + p.getD 3 0 % 256

/-- A configuration with the CDP packet layout (27-byte header, data checksum at
offset 23) and distinct error codes. -/
def sampleMacros (apollo3 : Bool) : Macros :=
  { apollo3 := apollo3
    DUCK_ERR_NONE := 0
    DUCKLORA_ERR_BEGIN := -1000
    DUCKLORA_ERR_SETUP := -1001
    DUCKLORA_ERR_RECEIVE := -1002
    DUCKLORA_ERR_TIMEOUT := -1003
    DUCKLORA_ERR_TRANSMIT := -1004
    DUCKLORA_ERR_HANDLE_PACKET := -1050
    DUCKLORA_ERR_MSG_TOO_LARGE := -1051
    RADIOLIB_ERR_NONE := 0
    RADIOLIB_ERR_PACKET_TOO_LONG := -4
    RADIOLIB_ERR_TX_TIMEOUT := -5
    RADIOLIB_ERR_INVALID_FREQUENCY := -12
    RADIOLIB_ERR_INVALID_BANDWIDTH := -8
    RADIOLIB_ERR_INVALID_SPREADING_FACTOR := -9
    RADIOLIB_ERR_INVALID_OUTPUT_POWER := -13
    RADIOLIB_ERR_INVALID_GAIN := -19
    RADIOLIB_SX127X_CLEAR_IRQ_FLAG_RX_DONE := 0x40
    RADIOLIB_SX127X_CLEAR_IRQ_FLAG_TX_DONE := 0x08
    MIN_PACKET_LENGTH := 28
    DATA_POS := 27
    DATA_CRC_POS := 23
    CDPCFG_DEFAULT_SYNC_WORD := 0x12
    CHANNEL_1 := 915000
    CHANNEL_2 := 915500
    CHANNEL_3 := 916000
    CHANNEL_4 := 916500
    CHANNEL_5 := 917000
    CHANNEL_6 := 917500
    CHANNEL_1_EU := 868000
    CHANNEL_2_EU := 868500
    CHANNEL_3_EU := 869000
    CHANNEL_4_EU := 869500
    CHANNEL_5_EU := 870000
    CHANNEL_6_EU := 870500
    toUnit32 := toUnit32
    crc32 := crc32 }

/-- A driver that accepts every request and reports the given received packet. -/
def acceptingLora (packet : List Nat) : Lora :=
  { status := fun _ _ => 0
    packetLength := fun _ => packet.length
    received := fun _ => packet
    irqFlags := fun _ => 0 }

/-- A driver that answers every status-returning call with `r`. -/
def answeringLora (r : Int) (packet : List Nat) : Lora :=
  { status := fun _ _ => r
    packetLength := fun _ => packet.length
    received := fun _ => packet
    irqFlags := fun _ => 0 }

/-- A 28-byte packet: 23 header bytes, the checksum `0xE8B7BE43` of its data
section, and the one data byte `0x61`. -/
def goodPacket : List Nat :=
  List.replicate 23 0 ++ [0xE8, 0xB7, 0xBE, 0x43] ++ [0x61]

/-- The same packet with its data byte altered in transit. -/
def badPacket : List Nat :=
  List.replicate 23 0 ++ [0xE8, 0xB7, 0xBE, 0x43] ++ [0x62]

end DuckRadio

/-! ## Basic facts about the building blocks -/

namespace DuckRadio

theorem loraCall_log (d : Lora) (k : Call) (s : RadioState) :
    (loraCall d k s).2 = { s with log := s.log ++ [k] } := rfl

theorem startReceive_state (c : Macros) (d : Lora) (s : RadioState) :
    (startReceive c d s).2 =
      { s with radio_receiving := true, log := s.log ++ [Call.startReceive] } := by
  simp only [startReceive, loraCall]
  split <;> rfl

theorem countStartReceive_append (l₁ l₂ : List Call) :
    countStartReceive (l₁ ++ l₂) = countStartReceive l₁ + countStartReceive l₂ := by
  simp [countStartReceive]

theorem length_resize (v : List Nat) (n : Nat) : (resize v n).length = n := by
  simp only [resize, List.length_append, List.length_take, List.length_replicate]
  omega

theorem length_writeBytes (buf rx : List Nat) (n : Nat) (h : buf.length = n) :
    (writeBytes buf rx n).length = n := by
  simp only [writeBytes, List.length_append, List.length_take, List.length_drop]
  omega

/-! ## readReceivedData -/

/-- C1: when the radio reports a packet length below `MIN_PACKET_LENGTH`,
`readReceivedData` returns `DUCKLORA_ERR_HANDLE_PACKET`, the caller's
`packetBytes` is returned as it was, the only driver calls made are
`getPacketLength` and `startReceive` (so `readData` is not called), and the
outcome does not depend on what the radio holds as received bytes. -/
theorem readReceivedData_too_short (c : Macros) (d : Lora) (packetBytes : List Nat)
    (s : RadioState) (h : d.packetLength s.log < c.MIN_PACKET_LENGTH) :
    (readReceivedData c d packetBytes s).1 = c.DUCKLORA_ERR_HANDLE_PACKET ∧
    (readReceivedData c d packetBytes s).2.1 = packetBytes ∧
    (readReceivedData c d packetBytes s).2.2.log =
      s.log ++ [Call.getPacketLength, Call.startReceive] ∧
    (∀ k ∈ (readReceivedData c d packetBytes s).2.2.log.drop s.log.length,
      k.isReadData = false) ∧
    (∀ rx : List Call → List Nat,
      readReceivedData c { d with received := rx } packetBytes s =
        readReceivedData c d packetBytes s) := by
  have hlog : (readReceivedData c d packetBytes s).2.2.log =
      s.log ++ [Call.getPacketLength, Call.startReceive] := by
    simp [readReceivedData, h, startReceive_state, setReceiveFlag]
  refine ⟨?_, ?_, hlog, ?_, ?_⟩
  · simp [readReceivedData, h]
  · simp [readReceivedData, h]
  · rw [hlog]
    simp [Call.isReadData]
  · intro rx
    simp [readReceivedData, h, startReceive, loraCall]

/-- An instance of C1: a reported length of 5 bytes under the 28-byte minimum. -/
theorem readReceivedData_too_short_witness :
    (readReceivedData (sampleMacros true) (acceptingLora [1, 2, 3, 4, 5]) [9, 9] initial).1
        = -1050 ∧
    (readReceivedData (sampleMacros true) (acceptingLora [1, 2, 3, 4, 5]) [9, 9] initial).2.1
        = [9, 9] :=
  have h := readReceivedData_too_short (sampleMacros true) (acceptingLora [1, 2, 3, 4, 5])
    [9, 9] initial (by decide)
  ⟨h.1, h.2.1⟩

theorem readReceivedData_flags (c : Macros) (d : Lora) (packetBytes : List Nat)
    (s : RadioState) :
    (readReceivedData c d packetBytes s).2.2 =
      { s with
        receivedFlag := false
        radio_receiving := true
        log := (readReceivedData c d packetBytes s).2.2.log } := by
  simp only [readReceivedData]
  split
  · simp [startReceive_state, setReceiveFlag]
  · split
    · simp [startReceive_state, setReceiveFlag, loraCall]
    · split
      · simp [startReceive_state, setReceiveFlag, loraCall]
      · split <;> simp [startReceive_state, setReceiveFlag, loraCall]

theorem readReceivedData_log (c : Macros) (d : Lora) (packetBytes : List Nat)
    (s : RadioState) :
    ∃ pre post : List Call,
      (readReceivedData c d packetBytes s).2.2.log
        = s.log ++ pre ++ Call.startReceive :: post ∧
      (pre = [Call.getPacketLength] ∨
        pre = [Call.getPacketLength, Call.readData (d.packetLength s.log)]) ∧
      (post = [] ∨ post = signalQueries c) := by
  simp only [readReceivedData]
  split
  · exact ⟨[Call.getPacketLength], [], by simp [startReceive_state, setReceiveFlag],
      Or.inl rfl, Or.inl rfl⟩
  · split
    · exact ⟨[Call.getPacketLength, Call.readData (d.packetLength s.log)], [],
        by simp [startReceive_state, setReceiveFlag, loraCall], Or.inr rfl, Or.inl rfl⟩
    · split
      · exact ⟨[Call.getPacketLength, Call.readData (d.packetLength s.log)], [],
          by simp [startReceive_state, setReceiveFlag, loraCall], Or.inr rfl, Or.inl rfl⟩
      · split <;>
          exact ⟨[Call.getPacketLength, Call.readData (d.packetLength s.log)],
            signalQueries c,
            by simp [startReceive_state, setReceiveFlag, loraCall], Or.inr rfl, Or.inr rfl⟩

theorem countStartReceive_signalQueries (c : Macros) :
    countStartReceive (signalQueries c) = 0 := by
  unfold signalQueries countStartReceive
  split <;> decide

theorem isSignalQuery_signalQueries (c : Macros) :
    ∀ k ∈ signalQueries c, k.isSignalQuery = true := by
  unfold signalQueries
  split <;> simp [Call.isSignalQuery]

/-- C2: for a reported length of at least `MIN_PACKET_LENGTH` the buffer handed
back holds exactly that many bytes; if the CRC32 of its bytes from `DATA_POS`
to the end differs from the 32-bit value stored at `DATA_CRC_POS`, the result is
`DUCKLORA_ERR_HANDLE_PACKET`, whatever the driver answered to `readData` and to
`startReceive`; and a result of `DUCK_ERR_NONE` implies that the two checksums
are equal. -/
theorem readReceivedData_crc_mismatch (c : Macros) (d : Lora) (packetBytes : List Nat)
    (s : RadioState) (hlen : c.MIN_PACKET_LENGTH ≤ d.packetLength s.log)
    (hcode : c.DUCKLORA_ERR_HANDLE_PACKET ≠ c.DUCK_ERR_NONE) :
    (readReceivedData c d packetBytes s).2.1.length = (d.packetLength s.log).toNat ∧
    (c.crc32 (((readReceivedData c d packetBytes s).2.1.take
          (d.packetLength s.log).toNat).drop c.DATA_POS) % 2 ^ 32 ≠
        c.toUnit32 ((readReceivedData c d packetBytes s).2.1.drop c.DATA_CRC_POS) % 2 ^ 32 →
      (readReceivedData c d packetBytes s).1 = c.DUCKLORA_ERR_HANDLE_PACKET) ∧
    ((readReceivedData c d packetBytes s).1 = c.DUCK_ERR_NONE →
      c.crc32 (((readReceivedData c d packetBytes s).2.1.take
          (d.packetLength s.log).toNat).drop c.DATA_POS) % 2 ^ 32 =
        c.toUnit32 ((readReceivedData c d packetBytes s).2.1.drop c.DATA_CRC_POS) % 2 ^ 32) := by
  have hnot : ¬ d.packetLength s.log < c.MIN_PACKET_LENGTH := not_lt.mpr hlen
  have hbuf : (readReceivedData c d packetBytes s).2.1 =
      writeBytes (resize packetBytes (d.packetLength s.log).toNat)
        (d.received (s.log ++ [Call.getPacketLength])) (d.packetLength s.log).toNat := by
    simp only [readReceivedData, hnot, if_false]
    split
    · rfl
    · split
      · rfl
      · split <;> rfl
  have hmis : c.crc32 (((readReceivedData c d packetBytes s).2.1.take
          (d.packetLength s.log).toNat).drop c.DATA_POS) % 2 ^ 32 ≠
        c.toUnit32 ((readReceivedData c d packetBytes s).2.1.drop c.DATA_CRC_POS) % 2 ^ 32 →
      (readReceivedData c d packetBytes s).1 = c.DUCKLORA_ERR_HANDLE_PACKET := by
    rw [hbuf]
    intro hne
    simp only [readReceivedData, hnot, if_false]
    split <;> rfl
  refine ⟨?_, hmis, ?_⟩
  · rw [hbuf]
    exact length_writeBytes _ _ _ (length_resize _ _)
  · intro hret
    by_contra hne
    exact hcode ((hmis hne).symm.trans hret)

/-- An instance of C2: a 28-byte packet whose data byte was altered is refused
although the driver reports a clean read and a clean restart. -/
theorem readReceivedData_crc_mismatch_witness :
    (readReceivedData (sampleMacros true) (acceptingLora badPacket) [] initial).1 = -1050 :=
  (readReceivedData_crc_mismatch (sampleMacros true) (acceptingLora badPacket) [] initial
    (by decide) (by decide)).2.1 (by decide)

/-- The unaltered packet is accepted: `readReceivedData` does return
`DUCK_ERR_NONE` when the checksums agree and the driver reports no error. -/
theorem readReceivedData_good_packet :
    (readReceivedData (sampleMacros true) (acceptingLora goodPacket) [] initial).1 = 0 ∧
    (readReceivedData (sampleMacros true) (acceptingLora goodPacket) [] initial).2.1
      = goodPacket := by
  decide

/-- C3: on every path through `readReceivedData` the pending received-data flag
ends up false, the state is marked receiving, and the driver's `startReceive`
has been called exactly once more than before: the calls made are
`getPacketLength` (and `readData` when the length is accepted), then the one
`startReceive`, and after it nothing but the signal-quality queries of the log
statement, which start nothing. -/
theorem readReceivedData_rearms (c : Macros) (d : Lora) (packetBytes : List Nat)
    (s : RadioState) :
    (readReceivedData c d packetBytes s).2.2.receivedFlag = false ∧
    (readReceivedData c d packetBytes s).2.2.radio_receiving = true ∧
    countStartReceive (readReceivedData c d packetBytes s).2.2.log
      = countStartReceive s.log + 1 ∧
    (∃ pre post : List Call,
      (readReceivedData c d packetBytes s).2.2.log
        = s.log ++ pre ++ Call.startReceive :: post ∧
      (∀ k ∈ pre, k ≠ Call.startReceive ∧ k.isTransmit = false) ∧
      (∀ k ∈ post, k.isSignalQuery = true)) := by
  obtain ⟨pre, post, hlog, hpre, hpost⟩ := readReceivedData_log c d packetBytes s
  have hflags := readReceivedData_flags c d packetBytes s
  have hpost2 : ∀ k ∈ post, k.isSignalQuery = true := by
    rcases hpost with h | h
    · subst h
      simp
    · subst h
      exact isSignalQuery_signalQueries c
  have hpostc : countStartReceive post = 0 := by
    rcases hpost with h | h
    · subst h
      rfl
    · subst h
      exact countStartReceive_signalQueries c
  have hprec : countStartReceive pre = 0 ∧
      ∀ k ∈ pre, k ≠ Call.startReceive ∧ k.isTransmit = false := by
    rcases hpre with h | h
    · subst h
      simp [countStartReceive, Call.isTransmit]
    · subst h
      simp [countStartReceive, Call.isTransmit]
  refine ⟨?_, ?_, ?_, pre, post, hlog, hprec.2, hpost2⟩
  · rw [hflags]
  · rw [hflags]
  · rw [hlog, countStartReceive_append, countStartReceive_append, hprec.1]
    have hcons : countStartReceive (Call.startReceive :: post) = countStartReceive post + 1 := by
      simp [countStartReceive]
    rw [hcons, hpostc]

/-! ## startTransmitData -/

theorem startTransmitData_state (c : Macros) (d : Lora) (data : List Nat) (length : Int)
    (s : RadioState) :
    (startTransmitData c d data length s).2 =
      { s with radio_sending := true, log := s.log ++ [Call.transmit data length] } := rfl

/-- C4: with pairwise distinct `case` labels and error codes different from
`DUCK_ERR_NONE`, `startTransmitData` returns `DUCK_ERR_NONE` exactly when the
driver's transmit returned `RADIOLIB_ERR_NONE`, `DUCKLORA_ERR_MSG_TOO_LARGE` for
`RADIOLIB_ERR_PACKET_TOO_LONG`, `DUCKLORA_ERR_TIMEOUT` for
`RADIOLIB_ERR_TX_TIMEOUT` and `DUCKLORA_ERR_TRANSMIT` for every other result;
both `sendData` overloads and `relayPacket` give what `startTransmitData` gives
for the same bytes. -/
theorem startTransmitData_result (c : Macros) (d : Lora) (data : List Nat) (length : Int)
    (packet : DuckPacket) (s : RadioState)
    (hlabels : c.RADIOLIB_ERR_PACKET_TOO_LONG ≠ c.RADIOLIB_ERR_NONE ∧
      c.RADIOLIB_ERR_TX_TIMEOUT ≠ c.RADIOLIB_ERR_NONE ∧
      c.RADIOLIB_ERR_TX_TIMEOUT ≠ c.RADIOLIB_ERR_PACKET_TOO_LONG)
    (hcodes : c.DUCKLORA_ERR_MSG_TOO_LARGE ≠ c.DUCK_ERR_NONE ∧
      c.DUCKLORA_ERR_TIMEOUT ≠ c.DUCK_ERR_NONE ∧
      c.DUCKLORA_ERR_TRANSMIT ≠ c.DUCK_ERR_NONE) :
    ((startTransmitData c d data length s).1 = c.DUCK_ERR_NONE ↔
      d.status s.log (Call.transmit data length) = c.RADIOLIB_ERR_NONE) ∧
    (d.status s.log (Call.transmit data length) = c.RADIOLIB_ERR_PACKET_TOO_LONG →
      (startTransmitData c d data length s).1 = c.DUCKLORA_ERR_MSG_TOO_LARGE) ∧
    (d.status s.log (Call.transmit data length) = c.RADIOLIB_ERR_TX_TIMEOUT →
      (startTransmitData c d data length s).1 = c.DUCKLORA_ERR_TIMEOUT) ∧
    (d.status s.log (Call.transmit data length) ≠ c.RADIOLIB_ERR_NONE →
      d.status s.log (Call.transmit data length) ≠ c.RADIOLIB_ERR_PACKET_TOO_LONG →
      d.status s.log (Call.transmit data length) ≠ c.RADIOLIB_ERR_TX_TIMEOUT →
      (startTransmitData c d data length s).1 = c.DUCKLORA_ERR_TRANSMIT) ∧
    sendData c d data length s = startTransmitData c d data length s ∧
    sendDataVec c d data s = startTransmitData c d data data.length s ∧
    relayPacket c d packet s = startTransmitData c d packet.buffer packet.buffer.length s := by
  obtain ⟨hl1, hl2, hl3⟩ := hlabels
  obtain ⟨hc1, hc2, hc3⟩ := hcodes
  refine ⟨?_, ?_, ?_, ?_, rfl, rfl, rfl⟩
  · simp only [startTransmitData, loraCall]
    constructor
    · intro h
      by_contra hne
      rw [if_neg hne] at h
      split at h
      · exact hc1 h
      · split at h
        · exact hc2 h
        · exact hc3 h
    · intro h
      rw [if_pos h]
  · intro h
    simp only [startTransmitData, loraCall]
    simp [h, hl1]
  · intro h
    simp only [startTransmitData, loraCall]
    simp [h, hl2, hl3]
  · intro h1 h2 h3
    simp only [startTransmitData, loraCall]
    rw [if_neg h1, if_neg h2, if_neg h3]

/-- An instance of C4 with the RadioLib and CDP codes: a transmit timeout (-5)
comes back as `DUCKLORA_ERR_TIMEOUT` (-1003). -/
theorem startTransmitData_result_witness :
    (startTransmitData (sampleMacros true) (answeringLora (-5) []) [1, 2, 3] 3 initial).1
      = -1003 :=
  (startTransmitData_result (sampleMacros true) (answeringLora (-5) []) [1, 2, 3] 3
    ⟨[1, 2, 3]⟩ initial (by decide) (by decide)).2.2.1 rfl

/-- C5, as the code has it: for every starting state and every failing driver
result, `startTransmitData` returns one of its three error codes and makes the
transmit its only driver call, so reception is not re-armed before it returns;
`radio_sending` is true and `radio_receiving`, the interrupt indication and the
received-data flag are as they were.  In the flag-based build reception is
re-armed by the next serviced interrupt: after `onInterrupt` and
`serviceInterruptFlags`, `radio_sending` is false, `radio_receiving` is true and
the driver's `startReceive` has been called once. -/
theorem startTransmitData_failure_state (c : Macros) (d : Lora) (data : List Nat)
    (length : Int) (s : RadioState)
    (hfail : d.status s.log (Call.transmit data length) ≠ c.RADIOLIB_ERR_NONE) :
    ((startTransmitData c d data length s).1 = c.DUCKLORA_ERR_MSG_TOO_LARGE ∨
      (startTransmitData c d data length s).1 = c.DUCKLORA_ERR_TIMEOUT ∨
      (startTransmitData c d data length s).1 = c.DUCKLORA_ERR_TRANSMIT) ∧
    (startTransmitData c d data length s).2 =
      { s with radio_sending := true, log := s.log ++ [Call.transmit data length] } ∧
    (serviceInterruptFlags { c with apollo3 := true } d
        (onInterrupt { c with apollo3 := true } d
          (startTransmitData { c with apollo3 := true } d data length s).2)) =
      { s with
        radio_sending := false
        radio_receiving := true
        interruptFired := false
        log := s.log ++ [Call.transmit data length, Call.startReceive] } := by
  refine ⟨?_, rfl, ?_⟩
  · simp only [startTransmitData, loraCall]
    rw [if_neg hfail]
    split
    · exact Or.inl rfl
    · split
      · exact Or.inr (Or.inl rfl)
      · exact Or.inr (Or.inr rfl)
  · simp [startTransmitData_state, onInterrupt, serviceInterruptFlags, startReceive_state]

/-- An instance of the amended C5: a transmit that times out from the initial state. -/
theorem startTransmitData_failure_state_witness :
    (startTransmitData (sampleMacros true) (answeringLora (-5) []) [1, 2, 3] 3 initial).2 =
      { initial with radio_sending := true, log := [Call.transmit [1, 2, 3] 3] } :=
  (startTransmitData_failure_state (sampleMacros true) (answeringLora (-5) []) [1, 2, 3] 3
    initial (by decide)).2.1

/-- C5 fails as stated: after a transmit that timed out, `startTransmitData`
returns `DUCKLORA_ERR_TIMEOUT` with `radio_sending` still true, `radio_receiving`
still false and no `startReceive` call made. -/
theorem startTransmitData_failure_not_rearmed :
    (startTransmitData (sampleMacros true) (answeringLora (-5) []) [1, 2, 3] 3 initial).1
      = (sampleMacros true).DUCKLORA_ERR_TIMEOUT ∧
    ¬ ((startTransmitData (sampleMacros true) (answeringLora (-5) []) [1, 2, 3] 3
          initial).2.radio_sending = false ∧
       (startTransmitData (sampleMacros true) (answeringLora (-5) []) [1, 2, 3] 3
          initial).2.radio_receiving = true ∧
       0 < countStartReceive (startTransmitData (sampleMacros true) (answeringLora (-5) [])
          [1, 2, 3] 3 initial).2.log) ∧
    (startTransmitData (sampleMacros true) (answeringLora (-5) []) [1, 2, 3] 3
        initial).2.radio_sending = true ∧
    (startTransmitData (sampleMacros true) (answeringLora (-5) []) [1, 2, 3] 3
        initial).2.radio_receiving = false ∧
    countStartReceive (startTransmitData (sampleMacros true) (answeringLora (-5) [])
        [1, 2, 3] 3 initial).2.log = 0 := by
  decide

/-- C6, as the code has it: `startTransmitData` has no busy check.  In a state
where `radio_sending` is already true a further call (directly or through
`sendData` or `relayPacket`) hands the bytes to the driver's transmit again and
returns `DUCK_ERR_NONE` when the driver reports success; apart from the logged
driver call the state is as it was, so `radio_sending`, `radio_receiving`, the
interrupt indication and the received-data flag are unchanged. -/
theorem startTransmitData_while_sending (c : Macros) (d : Lora) (data : List Nat)
    (length : Int) (packet : DuckPacket) (s : RadioState) (hs : s.radio_sending = true) :
    (startTransmitData c d data length s).2 =
      { s with log := s.log ++ [Call.transmit data length] } ∧
    (sendData c d data length s).2 =
      { s with log := s.log ++ [Call.transmit data length] } ∧
    (sendDataVec c d data s).2 =
      { s with log := s.log ++ [Call.transmit data data.length] } ∧
    (relayPacket c d packet s).2 =
      { s with log := s.log ++ [Call.transmit packet.buffer packet.buffer.length] } ∧
    (d.status s.log (Call.transmit data length) = c.RADIOLIB_ERR_NONE →
      (startTransmitData c d data length s).1 = c.DUCK_ERR_NONE) := by
  refine ⟨?_, ?_, ?_, ?_, ?_⟩
  · rw [startTransmitData_state, ← hs]
  · rw [sendData, startTransmitData_state, ← hs]
  · rw [sendDataVec, startTransmitData_state, ← hs]
  · rw [relayPacket, startTransmitData_state, ← hs]
  · intro h
    simp only [startTransmitData, loraCall]
    rw [if_pos h]

/-- An instance of the amended C6: a second transmit request while the first is
still marked as in progress. -/
theorem startTransmitData_while_sending_witness :
    (startTransmitData (sampleMacros true) (acceptingLora []) [7] 1
        { initial with radio_sending := true }).2 =
      { initial with radio_sending := true, log := [Call.transmit [7] 1] } :=
  (startTransmitData_while_sending (sampleMacros true) (acceptingLora []) [7] 1 ⟨[]⟩
    { initial with radio_sending := true } rfl).1

/-- C6 fails as stated: with `radio_sending` already true and a driver that
accepts the request, `startTransmitData` returns `DUCK_ERR_NONE` (zero, not a
busy error) and the driver's transmit has been invoked. -/
theorem startTransmitData_not_rejected_while_sending :
    (startTransmitData (sampleMacros true) (acceptingLora []) [7] 1
        { initial with radio_sending := true }).1 = 0 ∧
    (startTransmitData (sampleMacros true) (acceptingLora []) [7] 1
        { initial with radio_sending := true }).2.log = [Call.transmit [7] 1] ∧
    ¬ ((startTransmitData (sampleMacros true) (acceptingLora []) [7] 1
          { initial with radio_sending := true }).1 ≠ 0 ∧
       ∀ k ∈ (startTransmitData (sampleMacros true) (acceptingLora []) [7] 1
          { initial with radio_sending := true }).2.log, k.isTransmit = false) := by
  decide

/-! ## The two state flags along sequences of operations -/

theorem onInterrupt_radio_sending (c : Macros) (d : Lora) (s : RadioState) :
    (onInterrupt c d s).radio_sending = s.radio_sending := by
  unfold onInterrupt
  split <;> rfl

theorem setupRadioReceive_state (c : Macros) (d : Lora) (s : RadioState) :
    (setupRadioReceive c d s).2 = { s with log := s.log ++ [Call.startReceive] } := by
  simp only [setupRadioReceive, loraCall]
  split <;> rfl

theorem setupRadio_flags (c : Macros) (d : Lora) (config : LoraConfigParams)
    (s : RadioState) :
    (setupRadio c d config s).2.radio_receiving = s.radio_receiving ∧
    (setupRadio c d config s).2.radio_sending = s.radio_sending := by
  simp only [setupRadio, setupRadioParams, loraCall]
  split_ifs <;> simp [setupRadioReceive_state]

/-- C8 on the code: `setupRadio` starts reception on the driver without marking
it.  For every configuration, driver and state it leaves `radio_receiving` and
`radio_sending` as they were; from the initial flags, with a driver that accepts
every request, it returns `DUCK_ERR_NONE`, its last driver call is
`startReceive`, and `radio_receiving` is still false (in both builds). -/
theorem setupRadio_not_marked_receiving :
    (∀ (c : Macros) (d : Lora) (config : LoraConfigParams) (s : RadioState),
      (setupRadio c d config s).2.radio_receiving = s.radio_receiving ∧
      (setupRadio c d config s).2.radio_sending = s.radio_sending) ∧
    (setupRadio (sampleMacros true) (acceptingLora []) sampleConfig initial).1
      = (sampleMacros true).DUCK_ERR_NONE ∧
    (setupRadio (sampleMacros true) (acceptingLora []) sampleConfig initial).2.log.getLast?
      = some Call.startReceive ∧
    (setupRadio (sampleMacros true) (acceptingLora []) sampleConfig initial).2.radio_receiving
      = false ∧
    (setupRadio (sampleMacros true) (acceptingLora []) sampleConfig initial).2.radio_sending
      = false ∧
    (setupRadio (sampleMacros false) (acceptingLora []) sampleConfig initial).1
      = (sampleMacros false).DUCK_ERR_NONE ∧
    (setupRadio (sampleMacros false) (acceptingLora []) sampleConfig initial).2.radio_receiving
      = false := by
  refine ⟨setupRadio_flags, ?_, ?_, ?_, ?_, ?_, ?_⟩ <;> decide

/-! ## onInterrupt -/

/-- C9: `onInterrupt` only records the event.  In the `CDPCFG_SPARKFUN_APOLLO3`
build the state afterwards is the state before with `interruptFired` true;
otherwise it is the state before with `interruptFlags` overwritten by the
driver's IRQ flags (and the `getIRQFlags` call logged).  In either build
`radio_sending`, `radio_receiving`, the received-data flag and the channel are
unchanged and no `startReceive` or `transmit` call is made; in the APOLLO3 build
calling it twice gives the same state as calling it once. -/
theorem onInterrupt_records_only (c : Macros) (d : Lora) (s : RadioState) :
    onInterrupt { c with apollo3 := true } d s = { s with interruptFired := true } ∧
    onInterrupt { c with apollo3 := false } d s =
      { s with interruptFlags := d.irqFlags s.log % 2 ^ 16
               log := s.log ++ [Call.getIRQFlags] } ∧
    (onInterrupt c d s).radio_sending = s.radio_sending ∧
    (onInterrupt c d s).radio_receiving = s.radio_receiving ∧
    (onInterrupt c d s).receivedFlag = s.receivedFlag ∧
    (onInterrupt c d s).channel = s.channel ∧
    countStartReceive (onInterrupt c d s).log = countStartReceive s.log ∧
    (∀ k ∈ (onInterrupt c d s).log.drop s.log.length,
      k.isTransmit = false ∧ k ≠ Call.startReceive) ∧
    onInterrupt { c with apollo3 := true } d (onInterrupt { c with apollo3 := true } d s) =
      onInterrupt { c with apollo3 := true } d s := by
  refine ⟨rfl, rfl, ?_, ?_, ?_, ?_, ?_, ?_, rfl⟩
  · exact onInterrupt_radio_sending c d s
  · unfold onInterrupt
    split <;> rfl
  · unfold onInterrupt
    split <;> rfl
  · unfold onInterrupt
    split <;> rfl
  · unfold onInterrupt
    split
    · rfl
    · simp [countStartReceive]
  · unfold onInterrupt
    split
    · simp
    · simp [Call.isTransmit]

/-! ## setChannel -/

theorem lastFrequency_append_setFrequency (l : List Call) (f : Nat) (tail : List Call)
    (h : ∀ k ∈ tail, k = Call.startReceive) :
    lastFrequency (l ++ Call.setFrequency f :: tail) = some f := by
  have key : ∀ (tl : List Call) (acc : Option Nat), (∀ k ∈ tl, k = Call.startReceive) →
      List.foldl (fun acc k => match k with
        | Call.setFrequency f => some f
        | _ => acc) acc tl = acc := by
    intro tl
    induction tl with
    | nil => intro acc _; rfl
    | cons k rest ih =>
      intro acc hk
      have hk0 : k = Call.startReceive := hk k (List.mem_cons_self _ _)
      subst hk0
      simp only [List.foldl_cons]
      exact ih acc (fun k hk2 => hk k (List.mem_cons_of_mem _ hk2))
  simp only [lastFrequency, List.foldl_append, List.foldl_cons]
  exact key tail (some f) h

theorem setChannelSwitch_log (c : Macros) (d : Lora) (channelNum : Int) (s : RadioState) :
    (setChannelSwitch c d channelNum s).2.log =
      s.log ++ [Call.setFrequency (c.CHANNEL channelNum), Call.startReceive] := by
  simp only [setChannelSwitch, Macros.CHANNEL, setChannelArm, loraCall]
  split_ifs <;> simp_all

/-- C10 on the code: the two `switch` statements of `setChannel` both sit in the
`if (isEU)` branch.  With `isEU` true the last frequency given to the driver is
`CHANNEL_<channelNum>`, not `CHANNEL_<channelNum>_EU`; with `isEU` false no
frequency is given to the driver at all.  With the sample constants and an
accepting driver, channel 2 ends on 915500 for `isEU` true, where
`CHANNEL_2_EU` is 868500. -/
theorem setChannel_last_frequency :
    (∀ (c : Macros) (d : Lora) (channelNum err0 : Int) (s : RadioState),
      lastFrequency (setChannel c d channelNum true err0 s).log
        = some (c.CHANNEL channelNum)) ∧
    (∀ (c : Macros) (d : Lora) (channelNum err0 : Int) (s : RadioState),
      lastFrequency (setChannel c d channelNum false err0 s).log = lastFrequency s.log) ∧
    lastFrequency (setChannel (sampleMacros true) (acceptingLora []) 2 true 0 initial).log
      = some 915500 ∧
    (sampleMacros true).CHANNEL_EU 2 = 868500 ∧
    (setChannel (sampleMacros true) (acceptingLora []) 2 true 0 initial).channel = 2 ∧
    lastFrequency (setChannel (sampleMacros true) (acceptingLora []) 2 false 0 initial).log
      = none := by
  refine ⟨?_, ?_, by decide, by decide, by decide, by decide⟩
  · intro c d channelNum err0 s
    simp only [setChannel, if_true, loraCall]
    split
    · rw [setChannelSwitch_log]
      exact lastFrequency_append_setFrequency _ _ _ (by simp)
    · show lastFrequency ((setChannelSwitch c d channelNum _).2.log ++ [Call.startReceive])
        = _
      rw [setChannelSwitch_log, List.append_assoc]
      exact lastFrequency_append_setFrequency _ _ _ (by simp)
  · intro c d channelNum err0 s
    simp only [setChannel, Bool.false_eq_true, if_false, loraCall]
    split
    · rfl
    · simp [lastFrequency, List.foldl_append]

/-! ## serviceInterruptFlags, flag-based build -/

/-- C11: in the `CDPCFG_SPARKFUN_APOLLO3` build, when an interrupt is pending
and `radio_sending` is true (whatever `radio_receiving` is),
`serviceInterruptFlags` treats it as transmit-done: afterwards `radio_sending`
is false, the driver's `startReceive` has been called once and
`radio_receiving` is true, the interrupt indication is cleared, and the
received-data flag, the interrupt flags word and the channel are unchanged. -/
theorem serviceInterruptFlags_transmit_done (c : Macros) (d : Lora) (s : RadioState)
    (hint : s.interruptFired = true) (hsend : s.radio_sending = true) :
    serviceInterruptFlags { c with apollo3 := true } d s =
      { s with
        radio_sending := false
        radio_receiving := true
        interruptFired := false
        log := s.log ++ [Call.startReceive] } ∧
    (serviceInterruptFlags { c with apollo3 := true } d s).receivedFlag = s.receivedFlag ∧
    countStartReceive (serviceInterruptFlags { c with apollo3 := true } d s).log
      = countStartReceive s.log + 1 := by
  have h : serviceInterruptFlags { c with apollo3 := true } d s =
      { s with
        radio_sending := false
        radio_receiving := true
        interruptFired := false
        log := s.log ++ [Call.startReceive] } := by
    simp [serviceInterruptFlags, hint, hsend, startReceive_state]
  refine ⟨h, ?_, ?_⟩
  · rw [h]
  · rw [h]
    simp [countStartReceive]

/-- An instance of C11: the interrupt after a transmit started while receiving. -/
theorem serviceInterruptFlags_transmit_done_witness :
    serviceInterruptFlags { sampleMacros false with apollo3 := true } (acceptingLora [])
        { initial with radio_receiving := true, radio_sending := true,
                       interruptFired := true } =
      { initial with radio_receiving := true, log := [Call.startReceive] } :=
  (serviceInterruptFlags_transmit_done (sampleMacros false) (acceptingLora [])
    { initial with radio_receiving := true, radio_sending := true, interruptFired := true }
    rfl rfl).1

/-- C12, as the code has it: in the `CDPCFG_SPARKFUN_APOLLO3` build, when the
machine is receiving (`radio_receiving` true, `radio_sending` false) and an
interrupt is pending, `serviceInterruptFlags` sets the received-data flag,
clears the interrupt indication and sets `radio_receiving` to false, without
calling the driver; `radio_sending` stays false.  The state is marked receiving
again by `readReceivedData`, which drains the flag and restarts reception. -/
theorem serviceInterruptFlags_reception_complete (c : Macros) (d : Lora) (s : RadioState)
    (packetBytes : List Nat)
    (hint : s.interruptFired = true) (hrecv : s.radio_receiving = true)
    (hsend : s.radio_sending = false) :
    serviceInterruptFlags { c with apollo3 := true } d s =
      { s with receivedFlag := true, radio_receiving := false, interruptFired := false } ∧
    (serviceInterruptFlags { c with apollo3 := true } d s).radio_sending = false ∧
    (readReceivedData { c with apollo3 := true } d packetBytes
      (serviceInterruptFlags { c with apollo3 := true } d s)).2.2.receivedFlag = false ∧
    (readReceivedData { c with apollo3 := true } d packetBytes
      (serviceInterruptFlags { c with apollo3 := true } d s)).2.2.radio_receiving = true ∧
    (readReceivedData { c with apollo3 := true } d packetBytes
      (serviceInterruptFlags { c with apollo3 := true } d s)).2.2.radio_sending = false := by
  have h : serviceInterruptFlags { c with apollo3 := true } d s =
      { s with receivedFlag := true, radio_receiving := false, interruptFired := false } := by
    simp [serviceInterruptFlags, hint, hrecv, hsend, setReceiveFlag]
  refine ⟨h, ?_, ?_, ?_, ?_⟩
  · rw [h]
    exact hsend
  · rw [readReceivedData_flags]
  · rw [readReceivedData_flags]
  · rw [readReceivedData_flags, h]
    exact hsend

/-- An instance of the amended C12: a reception-complete interrupt while listening. -/
theorem serviceInterruptFlags_reception_complete_witness :
    serviceInterruptFlags { sampleMacros false with apollo3 := true } (acceptingLora [])
        { initial with radio_receiving := true, interruptFired := true } =
      { initial with receivedFlag := true } :=
  (serviceInterruptFlags_reception_complete (sampleMacros false) (acceptingLora [])
    { initial with radio_receiving := true, interruptFired := true } [] rfl rfl rfl).1

/-- C12 fails as stated: servicing a pending interrupt in the receiving state
sets the received-data flag and clears the interrupt indication, but
`radio_receiving` is false afterwards. -/
theorem serviceInterruptFlags_clears_radio_receiving :
    (serviceInterruptFlags (sampleMacros true) (acceptingLora [])
        { initial with radio_receiving := true, interruptFired := true }).receivedFlag
      = true ∧
    (serviceInterruptFlags (sampleMacros true) (acceptingLora [])
        { initial with radio_receiving := true, interruptFired := true }).interruptFired
      = false ∧
    (serviceInterruptFlags (sampleMacros true) (acceptingLora [])
        { initial with radio_receiving := true, interruptFired := true }).radio_receiving
      = false ∧
    ¬ ((serviceInterruptFlags (sampleMacros true) (acceptingLora [])
        { initial with radio_receiving := true, interruptFired := true }).radio_receiving
      = true) := by
  decide

/-- C13: in the `CDPCFG_SPARKFUN_APOLLO3` build, `serviceInterruptFlags` is the
identity on a state with no interrupt pending; and when no interrupt is pending,
or one is pending while neither `radio_sending` nor `radio_receiving` is true,
the state afterwards is the state before with the interrupt indication cleared:
the received-data flag is as it was and the driver is not called. -/
theorem serviceInterruptFlags_discards (c : Macros) (d : Lora) (s : RadioState)
    (h : s.interruptFired = false ∨
      (s.radio_sending = false ∧ s.radio_receiving = false)) :
    serviceInterruptFlags { c with apollo3 := true } d s
      = { s with interruptFired := false } ∧
    (serviceInterruptFlags { c with apollo3 := true } d s).receivedFlag = s.receivedFlag ∧
    (serviceInterruptFlags { c with apollo3 := true } d s).log = s.log ∧
    serviceInterruptFlags { c with apollo3 := true } d { s with interruptFired := false }
      = { s with interruptFired := false } := by
  have key : serviceInterruptFlags { c with apollo3 := true } d s
      = { s with interruptFired := false } := by
    rcases h with h | ⟨hs, hr⟩
    · simp only [serviceInterruptFlags, h, if_true, Bool.false_eq_true, if_false]
      cases s
      simp_all
    · simp only [serviceInterruptFlags, hs, hr, if_true, Bool.false_eq_true, if_false]
      split
      · rfl
      · cases s
        simp_all
  refine ⟨key, ?_, ?_, ?_⟩
  · rw [key]
  · rw [key]
  · simp [serviceInterruptFlags]

/-- An instance of C13: an interrupt that arrives before reception was ever
marked as started is dropped. -/
theorem serviceInterruptFlags_discards_witness :
    serviceInterruptFlags { sampleMacros false with apollo3 := true } (acceptingLora [])
        { initial with interruptFired := true } = initial :=
  (serviceInterruptFlags_discards (sampleMacros false) (acceptingLora [])
    { initial with interruptFired := true } (Or.inr ⟨rfl, rfl⟩)).1

/-! ## startReceive -/

/-- C14: for every state and every result of the driver's `startReceive`, with
`DUCKLORA_ERR_RECEIVE` different from `DUCK_ERR_NONE`, `DuckRadio::startReceive`
returns `DUCK_ERR_NONE` exactly when the driver returned `RADIOLIB_ERR_NONE` and
`DUCKLORA_ERR_RECEIVE` otherwise; in both cases the state afterwards is the
state before with `radio_receiving` true and the driver call logged, so
`radio_sending`, the interrupt indication and the received-data flag are
unchanged. -/
theorem startReceive_result (c : Macros) (d : Lora) (s : RadioState)
    (hcode : c.DUCKLORA_ERR_RECEIVE ≠ c.DUCK_ERR_NONE) :
    ((startReceive c d s).1 = c.DUCK_ERR_NONE ↔
      d.status s.log Call.startReceive = c.RADIOLIB_ERR_NONE) ∧
    (d.status s.log Call.startReceive ≠ c.RADIOLIB_ERR_NONE →
      (startReceive c d s).1 = c.DUCKLORA_ERR_RECEIVE) ∧
    (startReceive c d s).2 =
      { s with radio_receiving := true, log := s.log ++ [Call.startReceive] } ∧
    (startReceive c d s).2.radio_receiving = true ∧
    (startReceive c d s).2.radio_sending = s.radio_sending ∧
    (startReceive c d s).2.interruptFired = s.interruptFired ∧
    (startReceive c d s).2.interruptFlags = s.interruptFlags ∧
    (startReceive c d s).2.receivedFlag = s.receivedFlag := by
  have hst := startReceive_state c d s
  refine ⟨?_, ?_, hst, ?_, ?_, ?_, ?_, ?_⟩
  · simp only [startReceive, loraCall]
    constructor
    · intro h
      by_contra hne
      rw [if_pos hne] at h
      exact hcode h
    · intro h
      rw [if_neg (not_not.mpr h)]
  · intro hne
    simp only [startReceive, loraCall]
    rw [if_pos hne]
  all_goals rw [hst]

/-- An instance of C14: the driver fails to arm reception (-1), the call returns
`DUCKLORA_ERR_RECEIVE` (-1002) and the state is marked receiving all the same. -/
theorem startReceive_result_witness :
    (startReceive (sampleMacros true) (answeringLora (-1) []) initial).1 = -1002 ∧
    (startReceive (sampleMacros true) (answeringLora (-1) []) initial).2.radio_receiving
      = true :=
  have h := startReceive_result (sampleMacros true) (answeringLora (-1) []) initial
    (by decide)
  ⟨h.2.1 (by decide), h.2.2.2.1⟩

end DuckRadio
